import Mathlib

/-!
Verification of the resolve-and-query core of `astrbot_plugin_be_checker`
(`ban_check.py`): identifier codec, ban-reply decoding, identifier cache,
and the resolution orchestrator `check_ban_async`.

Network and filesystem effects are abstracted as oracle parameters
(`UdpOutcome`, `FsOutcome`, `Env`); everything else is translated directly
from the Python source.
-/

namespace BanCheck

/-- Python string whitespace (`str.strip`, `str.isspace`): the Unicode
whitespace code points recognised by CPython. -/
def pyIsSpace (c : Char) : Bool :=
  decide ((9 ≤ c.toNat ∧ c.toNat ≤ 13) ∨ (28 ≤ c.toNat ∧ c.toNat ≤ 31) ∨
    c.toNat = 32 ∨ c.toNat = 133 ∨ c.toNat = 160 ∨ c.toNat = 5760 ∨
    (8192 ≤ c.toNat ∧ c.toNat ≤ 8202) ∨ c.toNat = 8232 ∨ c.toNat = 8233 ∨
    c.toNat = 8239 ∨ c.toNat = 8287 ∨ c.toNat = 12288)

/-- Value of a Unicode decimal digit (category Nd), as accepted by Python
`int()`; modelled over representative Nd ranges: ASCII, Arabic-Indic,
Extended Arabic-Indic, Devanagari and fullwidth digits. -/
def pyDecimalVal (c : Char) : Option Nat :=
  if 48 ≤ c.toNat ∧ c.toNat ≤ 57 then some (c.toNat - 48)
  else if 1632 ≤ c.toNat ∧ c.toNat ≤ 1641 then some (c.toNat - 1632)
  else if 1776 ≤ c.toNat ∧ c.toNat ≤ 1785 then some (c.toNat - 1776)
  else if 2406 ≤ c.toNat ∧ c.toNat ≤ 2415 then some (c.toNat - 2406)
  else if 65296 ≤ c.toNat ∧ c.toNat ≤ 65305 then some (c.toNat - 65296)
  else none

/-- Python `str.isdigit` on a single character: true for decimal digits
(category Nd) and for characters of Numeric_Type=Digit that are not
decimal, such as superscript and subscript digits (e.g. U+00B2 '²'). -/
def pyIsDigit (c : Char) : Bool :=
  (pyDecimalVal c).isSome ||
  decide (c.toNat = 178 ∨ c.toNat = 179 ∨ c.toNat = 185 ∨ c.toNat = 8304 ∨
    (8308 ≤ c.toNat ∧ c.toNat ≤ 8313) ∨ (8320 ≤ c.toNat ∧ c.toNat ≤ 8329))

/-- Python `identifier.isdigit()`: nonempty and every character is a digit. -/
def pyIsDigitStr (s : String) : Bool :=
  !s.data.isEmpty && s.data.all pyIsDigit

/-- Python `str.strip()` on a character list: drop whitespace from both ends. -/
def pyStrip (cs : List Char) : List Char :=
  ((cs.dropWhile pyIsSpace).reverse.dropWhile pyIsSpace).reverse

/-- Digit run of a Python integer literal: decimal digits with single
underscores allowed strictly between digits. -/
def pyIntDigits : List Char → Nat → Option Nat
  | [], acc => some acc
  | ['_'], _ => none
  | '_' :: c :: rest, acc =>
    match pyDecimalVal c with
    | some d => pyIntDigits rest (acc * 10 + d)
    | none => none
  | c :: rest, acc =>
    match pyDecimalVal c with
    | some d => pyIntDigits rest (acc * 10 + d)
    | none => none

/-- Python `int(s)` for a string argument: strip whitespace, optional sign,
then a nonempty digit run (underscores only between digits); `none` models
`ValueError`. -/
def pyInt (s : String) : Option Int :=
  match pyStrip s.data with
  | [] => none
  | '-' :: rest =>
    match rest with
    | [] => none
    | '_' :: _ => none
    | _ => (pyIntDigits rest 0).map (fun n => -(n : Int))
  | '+' :: rest =>
    match rest with
    | [] => none
    | '_' :: _ => none
    | _ => (pyIntDigits rest 0).map (fun n => (n : Int))
  | '_' :: _ => none
  | cs => (pyIntDigits cs 0).map (fun n => (n : Int))

/-! ## Identifier cache (`RID_CACHE`, a Python dict from identifier to rid) -/

/-- The in-memory cache table: an insertion-ordered association list with
unique keys, modelling the Python dict `RID_CACHE`. -/
abbrev Cache := List (String × String)

/-- `RID_CACHE.get(identifier)`. -/
def dictGet : Cache → String → Option String
  | [], _ => none
  | (k, v) :: rest, id => if k = id then some v else dictGet rest id

/-- `RID_CACHE[identifier] = rid`: overwrite in place if the key exists
(Python dicts keep the original position), otherwise append. -/
def dictPut : Cache → String → String → Cache
  | [], id, rid => [(id, rid)]
  | (k, v) :: rest, id, rid =>
    if k = id then (k, rid) :: rest else (k, v) :: dictPut rest id rid

/-- `RID_CACHE.pop(identifier, None)`: delete the key if present. -/
def dictRemove : Cache → String → Cache
  | [], _ => []
  | (k, v) :: rest, id => if k = id then rest else (k, v) :: dictRemove rest id

/-- Outcome of the underlying snapshot-file write, an oracle for the
filesystem behaviour inside `save_cache_to_file`. -/
inductive FsOutcome
  | success
  | permissionError (msg : String)
  | osError (msg : String)
  | otherError (msg : String)
deriving DecidableEq

/-- `save_cache_to_file`: if no cache path is configured it returns at once;
otherwise it attempts the write and catches `PermissionError`, `OSError`
and any other `Exception`, logging an error message instead of raising.
The returned list is the log; the function never fails. -/
def save_cache_to_file (path : Option String) (fs : FsOutcome) : List String :=
  match path with
  | none => []
  | some _ =>
    match fs with
    | FsOutcome.success => []
    | FsOutcome.permissionError m => ["无法保存缓存文件（权限不足）: " ++ m]
    | FsOutcome.osError m => ["保存缓存文件失败（磁盘空间不足或其他系统错误）: " ++ m]
    | FsOutcome.otherError m => ["保存缓存时发生未知错误: " ++ m]

/-- `get_rid_from_cache(identifier)`. -/
def get_rid_from_cache (c : Cache) (id : String) : Option String :=
  dictGet c id

/-- `add_rid_to_cache(identifier, rid)`: insert into the table, then persist
via `save_cache_to_file`; returns the new table and the persistence log. -/
def add_rid_to_cache (c : Cache) (id rid : String) (path : Option String)
    (fs : FsOutcome) : Cache × List String :=
  (dictPut c id rid, save_cache_to_file path fs)

/-- `remove_from_cache(identifier)`. -/
def remove_from_cache (c : Cache) (id : String) : Cache :=
  dictRemove c id

/-- `clear_cache()`: record the prior size, empty the table, persist, and
return the prior size (with the new table and the persistence log). -/
def clear_cache (c : Cache) (path : Option String) (fs : FsOutcome) :
    Nat × Cache × List String :=
  (c.length, [], save_cache_to_file path fs)

/-! ## Identifier codec (`compute_be_id`) -/

/-- Lowercase hexadecimal digit characters, as in Python `hexdigest()` /
`bytes.hex()`. -/
def hexDigitChar : Nat → Char
  | 0 => '0' | 1 => '1' | 2 => '2' | 3 => '3'
  | 4 => '4' | 5 => '5' | 6 => '6' | 7 => '7'
  | 8 => '8' | 9 => '9' | 10 => 'a' | 11 => 'b'
  | 12 => 'c' | 13 => 'd' | 14 => 'e' | _ => 'f'

/-- Two lowercase hex characters of one byte. -/
def byteHex (b : Nat) : List Char :=
  [hexDigitChar (b / 16), hexDigitChar (b % 16)]

/-- Lowercase hex rendering of a byte string (`bytes.hex()`). -/
def bytesHex (bs : List Nat) : List Char :=
  (bs.map byteHex).flatten

/-- Standard Base64 alphabet. -/
def b64Char (n : Nat) : Char :=
  "ABCDEFGHIJKLMNOPQRSTUVWXYZabcdefghijklmnopqrstuvwxyz0123456789+/".data.getD n 'A'

/-- `base64.b64encode`: standard alphabet, with `=` padding. -/
def base64Encode : List Nat → List Char
  | [] => []
  | [b1] => [b64Char (b1 / 4), b64Char (b1 % 4 * 16), '=', '=']
  | [b1, b2] =>
    [b64Char (b1 / 4), b64Char (b1 % 4 * 16 + b2 / 16), b64Char (b2 % 16 * 4), '=']
  | b1 :: b2 :: b3 :: rest =>
    b64Char (b1 / 4) :: b64Char (b1 % 4 * 16 + b2 / 16) ::
      b64Char (b2 % 16 * 4 + b3 / 64) :: b64Char (b3 % 64) :: base64Encode rest

/-- Bytes of an ASCII string (`.encode('ascii')` / `.encode('utf-8')` on
ASCII-only text, which is the only use in the codec). -/
def strBytes (s : String) : List Nat :=
  s.data.map Char.toNat

/-- 2^32, the word modulus of MD5 arithmetic. -/
def w32 : Nat := 4294967296

/-- Rotate a 32-bit word left by `n` bits. -/
def rotl32 (x n : Nat) : Nat :=
  ((x <<< n) % w32) ||| (x >>> (32 - n))

/-- The MD5 sine-derived constant table `K[0..63]`. -/
def md5K : List Nat :=
  [3614090360, 3905402710, 606105819, 3250441966, 4118548399, 1200080426,
   2821735955, 4249261313, 1770035416, 2336552879, 4294925233, 2304563134,
   1804603682, 4254626195, 2792965006, 1236535329, 4129170786, 3225465664,
   643717713, 3921069994, 3593408605, 38016083, 3634488961, 3889429448,
   568446438, 3275163606, 4107603335, 1163531501, 2850285829, 4243563512,
   1735328473, 2368359562, 4294588738, 2272392833, 1839030562, 4259657740,
   2763975236, 1272893353, 4139469664, 3200236656, 681279174, 3936430074,
   3572445317, 76029189, 3654602809, 3873151461, 530742520, 3299628645,
   4096336452, 1126891415, 2878612391, 4237533241, 1700485571, 2399980690,
   4293915773, 2240044497, 1873313359, 4264355552, 2734768916, 1309151649,
   4149444226, 3174756917, 718787259, 3951481745]

/-- The MD5 per-step left-rotation amounts `s[0..63]`. -/
def md5S : List Nat :=
  [7, 12, 17, 22, 7, 12, 17, 22, 7, 12, 17, 22, 7, 12, 17, 22,
   5, 9, 14, 20, 5, 9, 14, 20, 5, 9, 14, 20, 5, 9, 14, 20,
   4, 11, 16, 23, 4, 11, 16, 23, 4, 11, 16, 23, 4, 11, 16, 23,
   6, 10, 15, 21, 6, 10, 15, 21, 6, 10, 15, 21, 6, 10, 15, 21]

/-- The MD5 round mixing function for step `i`. -/
def md5Mix (i b c d : Nat) : Nat :=
  if i < 16 then (b &&& c) ||| ((b ^^^ 4294967295) &&& d)
  else if i < 32 then (d &&& b) ||| ((d ^^^ 4294967295) &&& c)
  else if i < 48 then b ^^^ c ^^^ d
  else c ^^^ (b ||| (d ^^^ 4294967295))

/-- The message-word index used at step `i`. -/
def md5MsgIx (i : Nat) : Nat :=
  if i < 16 then i
  else if i < 32 then (5 * i + 1) % 16
  else if i < 48 then (3 * i + 5) % 16
  else (7 * i) % 16

/-- One MD5 step: rotate the register file and update `b`. -/
def md5Step (m : Nat → Nat) (st : Nat × Nat × Nat × Nat) (i : Nat) :
    Nat × Nat × Nat × Nat :=
  match st with
  | (a, b, c, d) =>
    let f := (md5Mix i b c d + a + md5K.getD i 0 + m (md5MsgIx i)) % w32
    (d, (b + rotl32 f (md5S.getD i 0)) % w32, b, c)

/-- Process one 64-byte block: 64 steps, then add the previous state. -/
def md5Block (block : List Nat) (st : Nat × Nat × Nat × Nat) :
    Nat × Nat × Nat × Nat :=
  let m := fun j => block.getD (4 * j) 0 + 256 * block.getD (4 * j + 1) 0 +
    65536 * block.getD (4 * j + 2) 0 + 16777216 * block.getD (4 * j + 3) 0
  match st, (List.range 64).foldl (md5Step m) st with
  | (a0, b0, c0, d0), (a, b, c, d) =>
    ((a0 + a) % w32, (b0 + b) % w32, (c0 + c) % w32, (d0 + d) % w32)

/-- Fold `md5Block` over the given number of 64-byte blocks. -/
def md5Blocks : Nat → List Nat → Nat × Nat × Nat × Nat → Nat × Nat × Nat × Nat
  | 0, _, st => st
  | n + 1, msg, st => md5Blocks n (msg.drop 64) (md5Block (msg.take 64) st)

/-- MD5 padding for a message of `len` bytes: `0x80`, zeros to 56 mod 64,
then the bit length as 8 little-endian bytes. -/
def md5Padding (len : Nat) : List Nat :=
  let bits := 8 * len % 18446744073709551616
  128 :: List.replicate ((55 + 64 - len % 64) % 64) 0 ++
    [bits % 256, bits / 256 % 256, bits / 65536 % 256, bits / 16777216 % 256,
     bits / 4294967296 % 256, bits / 1099511627776 % 256,
     bits / 281474976710656 % 256, bits / 72057594037927936 % 256]

/-- Little-endian bytes of a 32-bit word. -/
def toLe4 (x : Nat) : List Nat :=
  [x % 256, x / 256 % 256, x / 65536 % 256, x / 16777216 % 256]

/-- Serialize the final MD5 state: the four words in little-endian order. -/
def md5Final (st : Nat × Nat × Nat × Nat) : List Nat :=
  toLe4 st.1 ++ toLe4 st.2.1 ++ toLe4 st.2.2.1 ++ toLe4 st.2.2.2

/-- `hashlib.md5(...).digest()` as a list of 16 bytes. -/
def md5 (msg : List Nat) : List Nat :=
  md5Final (md5Blocks ((msg ++ md5Padding msg.length).length / 64)
    (msg ++ md5Padding msg.length) (1732584193, 4023233417, 2562383102, 271733878))

/-- Python `str.lower()` restricted to its effect on ASCII letters (the
codec only ever lowers a hex string). -/
def asciiLower (c : Char) : Char :=
  if 65 ≤ c.toNat ∧ c.toNat ≤ 90 then Char.ofNat (c.toNat + 32) else c

/-- `compute_be_id(rid)`: decimal string, UTF-8 bytes, Base64, `BE` prefix,
MD5 over the ASCII bytes, lowercase hexdigest. -/
def compute_be_id (rid : Nat) : String :=
  let rid_str := toString rid
  let rid_base64 : String := ⟨base64Encode (strBytes rid_str)⟩
  let data := "BE" ++ rid_base64
  let md5_hash : String := ⟨bytesHex (md5 (strBytes data))⟩
  ⟨md5_hash.data.map asciiLower⟩

/-! ## Reply decoding (`_decode_ban_data`) and the ban query
(`check_ban_reason`) -/

/-- U+FFFD REPLACEMENT CHARACTER, produced by `errors='replace'`. -/
def replacementChar : Char := Char.ofNat 65533

/-- `bytes.decode('ascii', errors='replace')`: bytes below 0x80 map to
themselves, all others to U+FFFD; never raises. -/
def asciiReplace (bs : List Nat) : List Char :=
  bs.map fun b => if b < 128 then Char.ofNat b else replacementChar

/-- `bytes.decode('latin-1')`: each byte maps to the code point of the same
value; never raises. -/
def latin1Decode (bs : List Nat) : List Char :=
  bs.map Char.ofNat

/-- A UTF-8 continuation byte (0x80–0xBF). -/
def isCont (b : Nat) : Bool := decide (128 ≤ b ∧ b ≤ 191)

/-- Valid first continuation byte after a three-byte lead (excludes
overlong forms after 0xE0 and surrogates after 0xED). -/
def utf8Cont3 (b b2 : Nat) : Bool :=
  if b = 224 then decide (160 ≤ b2 ∧ b2 ≤ 191)
  else if b = 237 then decide (128 ≤ b2 ∧ b2 ≤ 159)
  else isCont b2

/-- Valid first continuation byte after a four-byte lead (excludes overlong
forms after 0xF0 and post-U+10FFFF forms after 0xF4). -/
def utf8Cont4 (b b2 : Nat) : Bool :=
  if b = 240 then decide (144 ≤ b2 ∧ b2 ≤ 191)
  else if b = 244 then decide (128 ≤ b2 ∧ b2 ≤ 143)
  else isCont b2

/-- Worker for `utf8Replace`: structural recursion on a fuel argument,
which `utf8Replace` instantiates with the length of the byte string (each
step consumes at least one byte, so that fuel always suffices). -/
def utf8ReplaceAux : Nat → List Nat → List Char
  | 0, _ => []
  | _ + 1, [] => []
  | fuel + 1, b :: rest =>
    if b < 128 then Char.ofNat b :: utf8ReplaceAux fuel rest
    else if b < 194 then replacementChar :: utf8ReplaceAux fuel rest
    else if b < 224 then
      match rest with
      | [] => [replacementChar]
      | b2 :: rest2 =>
        if isCont b2 then
          Char.ofNat ((b - 192) * 64 + (b2 - 128)) :: utf8ReplaceAux fuel rest2
        else replacementChar :: utf8ReplaceAux fuel (b2 :: rest2)
    else if b < 240 then
      match rest with
      | [] => [replacementChar]
      | b2 :: rest2 =>
        if utf8Cont3 b b2 then
          match rest2 with
          | [] => [replacementChar]
          | b3 :: rest3 =>
            if isCont b3 then
              Char.ofNat ((b - 224) * 4096 + (b2 - 128) * 64 + (b3 - 128)) ::
                utf8ReplaceAux fuel rest3
            else replacementChar :: utf8ReplaceAux fuel (b3 :: rest3)
        else replacementChar :: utf8ReplaceAux fuel (b2 :: rest2)
    else if b < 245 then
      match rest with
      | [] => [replacementChar]
      | b2 :: rest2 =>
        if utf8Cont4 b b2 then
          match rest2 with
          | [] => [replacementChar]
          | b3 :: rest3 =>
            if isCont b3 then
              match rest3 with
              | [] => [replacementChar]
              | b4 :: rest4 =>
                if isCont b4 then
                  Char.ofNat ((b - 240) * 262144 + (b2 - 128) * 4096 +
                    (b3 - 128) * 64 + (b4 - 128)) :: utf8ReplaceAux fuel rest4
                else replacementChar :: utf8ReplaceAux fuel (b4 :: rest4)
            else replacementChar :: utf8ReplaceAux fuel (b3 :: rest3)
        else replacementChar :: utf8ReplaceAux fuel (b2 :: rest2)
    else replacementChar :: utf8ReplaceAux fuel rest

/-- `bytes.decode('utf-8', errors='replace')`: decode valid sequences; an
ill-formed maximal subpart is replaced by one U+FFFD and decoding resumes
at the first byte not part of it; never raises. -/
def utf8Replace (bs : List Nat) : List Char :=
  utf8ReplaceAux bs.length bs

/-- `_decode_ban_data(ban_data)`: try `ascii`, `utf-8`, `latin-1` in order,
each as `decode(encoding, errors='replace').strip()`, returning the first
nonempty result; with `errors='replace'` none of the decodes raises, so the
fallback `ban_data.hex()` is reached exactly when every stripped result is
empty. -/
def _decode_ban_data (ban_data : List Nat) : List Char :=
  match ([asciiReplace ban_data, utf8Replace ban_data,
      latin1Decode ban_data].map pyStrip).find? (fun r => !r.isEmpty) with
  | some r => r
  | none => bytesHex ban_data

/-- Outcome of the single UDP exchange in `check_ban_reason`, abstracting
the transport: exactly one reply datagram, a timeout of the
`asyncio.wait_for` await, or a socket/endpoint error. -/
inductive UdpOutcome
  | reply (payload : List Nat)
  | timeout
  | transportError (msg : String)
deriving DecidableEq

/-- `check_ban_reason(rid)` as a function of the transport outcome for the
sent datagram: on a reply longer than 4 bytes, drop the 4 echoed header
bytes and decode the rest; on a reply of at most 4 bytes return `""`; on
timeout return the string `"查询超时"`; any lower-level error is caught by
the outer handler, which returns `"查询错误: " ++ msg`. The function never
raises. -/
def check_ban_reason (outcome : UdpOutcome) : String :=
  match outcome with
  | UdpOutcome.reply response =>
    if response.length > 4 then ⟨_decode_ban_data (response.drop 4)⟩ else ""
  | UdpOutcome.timeout => "查询超时"
  | UdpOutcome.transportError e => "查询错误: " ++ e

/-! ## Resolution orchestrator (`check_ban_async`) -/

/-- Observable side effects of one `check_ban_async` call. -/
inductive Event
  | resolverCall (name : String)
  | cacheRemove (id : String)
  | cachePut (id rid : String)
  | snapshotSave (log : List String)
deriving DecidableEq

/-- Environment of one `check_ban_async` call: the name-resolution outcome
(`get_rid_from_name`, whose transport/parse failures all surface as
`none`), the UDP transport outcome per queried rid, and the snapshot path
and filesystem outcome. -/
structure Env where
  resolve : String → Option String
  query : Int → UdpOutcome
  path : Option String
  fs : FsOutcome

/-- Result of one `check_ban_async` call: the returned `(ok, message)`
pair, the final cache table, and the emitted side effects. -/
structure Outcome where
  result : Bool × String
  cache : Cache
  events : List Event
deriving DecidableEq

/-- The shared success formatting of `check_ban_async`: an empty reason
reports not banned, a nonempty reason reports banned with the reason. -/
def banReport (identifier rid ban_reason : String) : Bool × String :=
  if ban_reason = "" then
    (true, identifier ++ " (RID: " ++ rid ++ ") 没有被封禁")
  else
    (true, identifier ++ " (RID: " ++ rid ++ ") 已被封禁 - 返回信息: " ++ ban_reason)

/-- Steps 3–5 of `check_ban_async`, after the rid has been obtained: fail
if the rid is `None` or empty (`if not rid`); on `use_cache` add it to the
cache (which also triggers the snapshot write); then parse the rid with
`int` (`ValueError` yields the invalid-rid failure) and query and report
the ban status. -/
def step3_onwards (env : Env) (cache : Cache) (identifier : String)
    (ridOpt : Option String) (use_cache : Bool) (ev : List Event) : Outcome :=
  match ridOpt with
  | none =>
    ⟨(false, "错误: 无法获取 " ++ identifier ++ " 的RID"), cache, ev⟩
  | some rid =>
    if rid = "" then
      ⟨(false, "错误: 无法获取 " ++ identifier ++ " 的RID"), cache, ev⟩
    else
      let cache2 :=
        if use_cache then (add_rid_to_cache cache identifier rid env.path env.fs).1
        else cache
      let ev2 :=
        if use_cache then
          ev ++ [Event.cachePut identifier rid,
            Event.snapshotSave (add_rid_to_cache cache identifier rid env.path env.fs).2]
        else ev
      match pyInt rid with
      | none => ⟨(false, "错误: 无效的RID " ++ rid), cache2, ev2⟩
      | some rid_int =>
        ⟨banReport identifier rid (check_ban_reason (env.query rid_int)),
          cache2, ev2⟩

/-- Steps 2–5 of `check_ban_async` (the fall-through tail after the cache
block): take the identifier itself as rid if `identifier.isdigit()`,
otherwise call the resolver, then continue with steps 3–5. -/
def step2_onwards (env : Env) (cache : Cache) (identifier : String)
    (use_cache : Bool) (ev0 : List Event) : Outcome :=
  if pyIsDigitStr identifier then
    step3_onwards env cache identifier (some identifier) use_cache ev0
  else
    step3_onwards env cache identifier (env.resolve identifier) use_cache
      (ev0 ++ [Event.resolverCall identifier])

/-- `check_ban_async(identifier, use_cache)`: with `use_cache`, look the
identifier up in the cache; a truthy (nonempty) hit is parsed with `int` —
on success the ban status is queried and reported directly, on
`ValueError` the entry is removed and control falls through to steps 2–5;
a miss or empty hit falls through unchanged. -/
def check_ban_async (env : Env) (cache : Cache) (identifier : String)
    (use_cache : Bool) : Outcome :=
  if use_cache then
    match get_rid_from_cache cache identifier with
    | some cached_rid =>
      if cached_rid = "" then step2_onwards env cache identifier use_cache []
      else
        match pyInt cached_rid with
        | some rid_int =>
          ⟨banReport identifier cached_rid (check_ban_reason (env.query rid_int)),
            cache, []⟩
        | none =>
          step2_onwards env (remove_from_cache cache identifier) identifier
            use_cache [Event.cacheRemove identifier]
    | none => step2_onwards env cache identifier use_cache []
  else step2_onwards env cache identifier use_cache []

/-! ## Concrete values used in statements -/

/-- The sixteen lowercase hexadecimal digit characters. -/
def lowerHexChars : List Char := "0123456789abcdef".data

/-- Concrete environment: the resolver finds nothing, replies are empty. -/
def envNoResolve : Env :=
  ⟨fun _ => none, fun _ => UdpOutcome.reply [], none, FsOutcome.success⟩

/-- Concrete environment: every UDP query times out. -/
def envTimeoutAll : Env :=
  ⟨fun _ => none, fun _ => UdpOutcome.timeout, none, FsOutcome.success⟩

/-- Concrete environment: every UDP query fails with a socket error. -/
def envSockErr : Env :=
  ⟨fun _ => none, fun _ => UdpOutcome.transportError "boom", none, FsOutcome.success⟩

/-- Concrete environment: every name resolves to rid 42, replies are empty. -/
def envResolve42 : Env :=
  ⟨fun _ => some "42", fun _ => UdpOutcome.reply [], none, FsOutcome.success⟩

/-! ## Helper lemmas -/

theorem dictGet_eq_none_of_not_mem {c : Cache} {id : String}
    (h : id ∉ c.map Prod.fst) : dictGet c id = none := by
  induction c with
  | nil => rfl
  | cons kv rest ih =>
    obtain ⟨k, v⟩ := kv
    simp only [List.map_cons, List.mem_cons] at h
    push_neg at h
    simp only [dictGet]
    rw [if_neg fun hk => h.1 hk.symm]
    exact ih h.2

theorem dictGet_dictPut_self (c : Cache) (id v : String) :
    dictGet (dictPut c id v) id = some v := by
  induction c with
  | nil => simp [dictPut, dictGet]
  | cons kv rest ih =>
    obtain ⟨k, w⟩ := kv
    by_cases hk : k = id
    · simp [dictPut, dictGet, hk]
    · simp [dictPut, dictGet, hk, ih]

theorem dictGet_dictPut_other (c : Cache) (id id2 v : String) (hne : id2 ≠ id) :
    dictGet (dictPut c id v) id2 = dictGet c id2 := by
  induction c with
  | nil =>
    simp only [dictPut, dictGet]
    rw [if_neg fun h => hne h.symm]
  | cons kv rest ih =>
    obtain ⟨k, w⟩ := kv
    simp only [dictPut]
    by_cases hk : k = id
    · rw [if_pos hk]
      simp only [dictGet]
      by_cases hk2 : k = id2
      · exact absurd (hk2 ▸ hk) hne
      · rw [if_neg hk2, if_neg hk2]
    · rw [if_neg hk]
      simp only [dictGet]
      by_cases hk2 : k = id2
      · rw [if_pos hk2, if_pos hk2]
      · rw [if_neg hk2, if_neg hk2]
        exact ih

theorem dictGet_dictRemove_self (c : Cache) (id : String)
    (hnd : (c.map Prod.fst).Nodup) : dictGet (dictRemove c id) id = none := by
  induction c with
  | nil => rfl
  | cons kv rest ih =>
    obtain ⟨k, w⟩ := kv
    simp only [List.map_cons, List.nodup_cons] at hnd
    simp only [dictRemove]
    by_cases hk : k = id
    · rw [if_pos hk]
      subst hk
      exact dictGet_eq_none_of_not_mem hnd.1
    · rw [if_neg hk]
      simp only [dictGet]
      rw [if_neg hk]
      exact ih hnd.2

theorem dictGet_dictRemove_other (c : Cache) (id id2 : String) (hne : id2 ≠ id) :
    dictGet (dictRemove c id) id2 = dictGet c id2 := by
  induction c with
  | nil => rfl
  | cons kv rest ih =>
    obtain ⟨k, w⟩ := kv
    simp only [dictRemove]
    by_cases hk : k = id
    · rw [if_pos hk]
      simp only [dictGet]
      rw [if_neg fun h : k = id2 => hne (h ▸ hk)]
    · rw [if_neg hk]
      simp only [dictGet]
      by_cases hk2 : k = id2
      · rw [if_pos hk2, if_pos hk2]
      · rw [if_neg hk2, if_neg hk2]
        exact ih

/-! ## C7–C9: cache claims -/

/-- C7: cache round-trip — after `put(id, v)`, `get(id)` returns `v`; after
`remove(id)`, `get(id)` is absent; and both operations leave the lookup of
every other key unchanged (the table is a dict, so its keys are unique). -/
theorem c7_cache_roundtrip (c : Cache) (id id2 v : String) (p : Option String)
    (fs : FsOutcome) (hnd : (c.map Prod.fst).Nodup) (hne : id2 ≠ id) :
    get_rid_from_cache (add_rid_to_cache c id v p fs).1 id = some v ∧
    get_rid_from_cache (remove_from_cache c id) id = none ∧
    get_rid_from_cache (add_rid_to_cache c id v p fs).1 id2 = get_rid_from_cache c id2 ∧
    get_rid_from_cache (remove_from_cache c id) id2 = get_rid_from_cache c id2 := by
  refine ⟨?_, ?_, ?_, ?_⟩
  · exact dictGet_dictPut_self c id v
  · exact dictGet_dictRemove_self c id hnd
  · exact dictGet_dictPut_other c id id2 v hne
  · exact dictGet_dictRemove_other c id id2 hne

/-- Witness for C7 at a concrete cache, identifier and value. -/
theorem c7_cache_roundtrip_witness :
    get_rid_from_cache (add_rid_to_cache [("bob", "7")] "alice" "123" none FsOutcome.success).1 "alice" = some "123" ∧
    get_rid_from_cache (remove_from_cache [("bob", "7")] "alice") "alice" = none ∧
    get_rid_from_cache (add_rid_to_cache [("bob", "7")] "alice" "123" none FsOutcome.success).1 "bob" = get_rid_from_cache [("bob", "7")] "bob" ∧
    get_rid_from_cache (remove_from_cache [("bob", "7")] "alice") "bob" = get_rid_from_cache [("bob", "7")] "bob" :=
  c7_cache_roundtrip [("bob", "7")] "alice" "bob" "123" none FsOutcome.success
    (by decide) (by decide)

/-- C8: `clear_cache` empties the table and returns the number of entries
present before the call; on an empty cache it returns 0 and leaves the
cache empty. -/
theorem c8_clear_cache (c : Cache) (p : Option String) (fs : FsOutcome) :
    (clear_cache c p fs).1 = c.length ∧
    (clear_cache c p fs).2.1 = [] ∧
    (clear_cache ([] : Cache) p fs).1 = 0 ∧
    (clear_cache ([] : Cache) p fs).2.1 = [] :=
  ⟨rfl, rfl, rfl, rfl⟩

/-- C9: snapshot-write failures are swallowed — for every filesystem
outcome, including permission and OS errors, `add_rid_to_cache` still
installs the entry in the in-memory table and `clear_cache` still empties
the table and returns the prior size; the tables and return values are
identical to the success case, the failure appearing only in the error
log, and no exception escapes (both operations are total). -/
theorem c9_snapshot_best_effort (c : Cache) (id rid : String)
    (p : Option String) (fs : FsOutcome) :
    (add_rid_to_cache c id rid p fs).1 = dictPut c id rid ∧
    get_rid_from_cache (add_rid_to_cache c id rid p fs).1 id = some rid ∧
    (add_rid_to_cache c id rid p fs).1 = (add_rid_to_cache c id rid p FsOutcome.success).1 ∧
    (clear_cache c p fs).1 = c.length ∧
    (clear_cache c p fs).2.1 = [] :=
  ⟨rfl, dictGet_dictPut_self c id rid, rfl, rfl, rfl⟩

theorem map_eq_self_of {α : Type} (l : List α) (f : α → α)
    (h : ∀ a ∈ l, f a = a) : l.map f = l := by
  induction l with
  | nil => rfl
  | cons a t ih =>
    simp only [List.map_cons]
    rw [h a (by simp), ih fun b hb => h b (by simp [hb])]

theorem hexDigitChar_mem (n : Nat) : hexDigitChar n ∈ lowerHexChars := by
  unfold hexDigitChar
  split <;> decide

theorem bytesHex_chars {bs : List Nat} {c : Char} (hc : c ∈ bytesHex bs) :
    c ∈ lowerHexChars := by
  simp only [bytesHex, List.mem_flatten, List.mem_map] at hc
  obtain ⟨l, ⟨b, _, hbl⟩, hcl⟩ := hc
  subst hbl
  simp only [byteHex, List.mem_cons, List.not_mem_nil, or_false] at hcl
  rcases hcl with h | h <;> subst h <;> exact hexDigitChar_mem _

theorem bytesHex_length (bs : List Nat) : (bytesHex bs).length = 2 * bs.length := by
  induction bs with
  | nil => rfl
  | cons b t ih =>
    simp only [bytesHex, List.map_cons, List.flatten_cons, List.length_append,
      List.length_cons] at ih ⊢
    simp only [byteHex, List.length_cons, List.length_nil]
    omega

theorem md5_length (m : List Nat) : (md5 m).length = 16 := by
  simp [md5, md5Final, toLe4]

theorem asciiLower_fixed_on_hex {c : Char} (h : c ∈ lowerHexChars) :
    asciiLower c = c := by
  fin_cases h <;> rfl

theorem compute_be_id_as_pipeline (rid : Nat) :
    compute_be_id rid =
      ⟨bytesHex (md5 (strBytes ("BE" ++
        (⟨base64Encode (strBytes (toString rid))⟩ : String))))⟩ := by
  unfold compute_be_id
  exact congrArg String.mk
    (map_eq_self_of _ _ fun c hc => asciiLower_fixed_on_hex (bytesHex_chars hc))

/-! ## C2: identifier codec -/

/-- C2: for every non-negative integer `rid`, `compute_be_id rid` is exactly
the lowercase hex rendering of the MD5 digest of the ASCII bytes of
`"BE" ++ Base64(UTF-8 bytes of the decimal representation of rid)`
(standard alphabet with padding), a 32-character string over the lowercase
hexadecimal alphabet; it is a total pure function of `rid`. -/
theorem c2_compute_be_id (rid : Nat) :
    compute_be_id rid =
      (⟨bytesHex (md5 (strBytes ("BE" ++
        (⟨base64Encode (strBytes (toString rid))⟩ : String))))⟩ : String) ∧
    (compute_be_id rid).length = 32 ∧
    ∀ c ∈ (compute_be_id rid).data, c ∈ lowerHexChars := by
  refine ⟨compute_be_id_as_pipeline rid, ?_, ?_⟩
  · rw [compute_be_id_as_pipeline rid]
    show (bytesHex (md5 _)).length = 32
    rw [bytesHex_length, md5_length]
  · intro c hc
    rw [compute_be_id_as_pipeline rid] at hc
    exact bytesHex_chars hc

set_option maxRecDepth 8000 in
/-- Witness for C2 at the spec's regression fixture `rid = 76561198000000000`:
the pinned digest value, plus the character-set clause of the theorem
applied at `'1'`, the first character of that digest. -/
theorem c2_compute_be_id_witness :
    compute_be_id 76561198000000000 = "13752536c8617307b675dc2e0300e9fa" ∧
    '1' ∈ lowerHexChars :=
  ⟨rfl, (c2_compute_be_id 76561198000000000).2.2 '1' (by
    have h : compute_be_id 76561198000000000 =
        "13752536c8617307b675dc2e0300e9fa" := rfl
    rw [h]
    decide)⟩

theorem pyStrip_eq_nil_iff {l : List Char} :
    pyStrip l = [] ↔ ∀ c ∈ l, pyIsSpace c = true := by
  unfold pyStrip
  rw [List.reverse_eq_nil_iff, List.dropWhile_eq_nil_iff]
  constructor
  · intro h c hc
    rw [← List.takeWhile_append_dropWhile (p := pyIsSpace) (l := l)] at hc
    rcases List.mem_append.mp hc with h1 | h2
    · exact List.mem_takeWhile_imp h1
    · exact h c (List.mem_reverse.mpr h2)
  · intro h x hx
    exact h x (List.Sublist.mem (List.mem_reverse.mp hx) (List.dropWhile_sublist _))

theorem asciiReplace_of_ascii {bs : List Nat} (h : ∀ b ∈ bs, b < 128) :
    asciiReplace bs = bs.map Char.ofNat :=
  List.map_congr_left fun b hb => if_pos (h b hb)

theorem utf8ReplaceAux_of_ascii :
    ∀ (fuel : Nat) (bs : List Nat), bs.length ≤ fuel → (∀ b ∈ bs, b < 128) →
      utf8ReplaceAux fuel bs = bs.map Char.ofNat
  | 0, [], _, _ => rfl
  | 0, _ :: _, hf, _ => by simp at hf
  | _ + 1, [], _, _ => rfl
  | fuel + 1, b :: rest, hf, h => by
    have hb : b < 128 := h b (by simp)
    show (if b < 128 then Char.ofNat b :: utf8ReplaceAux fuel rest else _) = _
    rw [if_pos hb, List.map_cons,
      utf8ReplaceAux_of_ascii fuel rest
        (by simp only [List.length_cons] at hf; omega)
        fun x hx => h x (by simp [hx])]

theorem utf8Replace_of_ascii {bs : List Nat} (h : ∀ b ∈ bs, b < 128) :
    utf8Replace bs = bs.map Char.ofNat :=
  utf8ReplaceAux_of_ascii bs.length bs le_rfl h

theorem decode_ascii_branch {bs : List Nat} (h : pyStrip (asciiReplace bs) ≠ []) :
    _decode_ban_data bs = pyStrip (asciiReplace bs) := by
  have hp : (!(pyStrip (asciiReplace bs)).isEmpty) = true := by
    simp [List.isEmpty_eq_false.mpr h]
  unfold _decode_ban_data
  simp only [List.map_cons, List.find?_cons, hp]

theorem decode_ws_fallback {bs : List Nat} (h : pyStrip (asciiReplace bs) = []) :
    (∀ b ∈ bs, b < 128 ∧ pyIsSpace (Char.ofNat b) = true) ∧
    _decode_ban_data bs = bytesHex bs := by
  have hall : ∀ c ∈ asciiReplace bs, pyIsSpace c = true := pyStrip_eq_nil_iff.mp h
  have hlt : ∀ b ∈ bs, b < 128 ∧ pyIsSpace (Char.ofNat b) = true := by
    intro b hb
    have hc : pyIsSpace (if b < 128 then Char.ofNat b else replacementChar) = true :=
      hall _ (List.mem_map_of_mem (fun b =>
        if b < 128 then Char.ofNat b else replacementChar) hb)
    by_cases hb128 : b < 128
    · rw [if_pos hb128] at hc
      exact ⟨hb128, hc⟩
    · rw [if_neg hb128] at hc
      exact absurd hc (by decide)
  refine ⟨hlt, ?_⟩
  have hascii : ∀ b ∈ bs, b < 128 := fun b hb => (hlt b hb).1
  have h8 : utf8Replace bs = asciiReplace bs := by
    rw [utf8Replace_of_ascii hascii, asciiReplace_of_ascii hascii]
  have hl : latin1Decode bs = asciiReplace bs := by
    rw [asciiReplace_of_ascii hascii]
    rfl
  unfold _decode_ban_data
  rw [h8, hl]
  simp [List.find?, h]

/-! ## C4: the decoding cascade -/

/-- C4 counterexample: the byte pair `[0xC3, 0xA9]` is invalid as ASCII but
valid UTF-8 (it decodes to U+00E9 'é'); the claim demands the UTF-8
decoding, but the code decodes with `errors='replace'`, so the ASCII
attempt never fails and the result is two replacement characters. -/
theorem c4_counterexample :
    utf8Replace [195, 169] = [Char.ofNat 233] ∧
    _decode_ban_data [195, 169] = [replacementChar, replacementChar] ∧
    ([replacementChar, replacementChar] : List Char) ≠ [Char.ofNat 233] := by
  refine ⟨by decide, by decide, by decide⟩

/-- C4 (amended): the cascade decodes with `errors='replace'`, so no
attempt is strict: whenever the ASCII-with-replacement decoding of the
bytes strips to a nonempty string, that string is the result (bytes ≥ 0x80
appearing as U+FFFD rather than via UTF-8 or Latin-1); the later attempts
are reached only when the ASCII attempt strips to empty — which forces
every byte to be ASCII whitespace — and then UTF-8 and Latin-1 strip to
empty as well and the lowercase-hex fallback is returned. -/
theorem c4_decode_cascade (bs : List Nat) :
    (pyStrip (asciiReplace bs) ≠ [] →
      _decode_ban_data bs = pyStrip (asciiReplace bs)) ∧
    (pyStrip (asciiReplace bs) = [] →
      (∀ b ∈ bs, b < 128 ∧ pyIsSpace (Char.ofNat b) = true) ∧
      _decode_ban_data bs = bytesHex bs) :=
  ⟨decode_ascii_branch, decode_ws_fallback⟩

/-- Witness for C4 at the bytes `"hi"` (ASCII branch) and `" "` (hex
fallback branch). -/
theorem c4_decode_cascade_witness :
    _decode_ban_data [104, 105] = pyStrip (asciiReplace [104, 105]) ∧
    _decode_ban_data [32] = bytesHex [32] :=
  ⟨(c4_decode_cascade [104, 105]).1 (by decide),
    ((c4_decode_cascade [32]).2 (by decide)).2⟩

theorem decode_ne_nil {bs : List Nat} (h : bs ≠ []) : _decode_ban_data bs ≠ [] := by
  by_cases ha : pyStrip (asciiReplace bs) = []
  · rw [(decode_ws_fallback ha).2]
    intro he
    have hlen := congrArg List.length he
    rw [bytesHex_length] at hlen
    simp only [List.length_nil] at hlen
    exact h (List.length_eq_zero.mp (by omega))
  · rw [decode_ascii_branch ha]
    exact ha

/-! ## C3: reply payload handling -/

/-- C3 counterexample: for the 5-byte reply `[1,2,3,4,32]` the tail is one
space byte, so the decoded-and-trimmed text is empty and the claim demands
"not banned" (empty reason); the code instead falls through to the hex
fallback and returns the nonempty reason `"20"`, which the orchestrator
formats as banned. -/
theorem c3_counterexample :
    pyStrip (asciiReplace [32]) = [] ∧
    check_ban_reason (UdpOutcome.reply [1, 2, 3, 4, 32]) = "20" ∧
    banReport "1" "1" (check_ban_reason (UdpOutcome.reply [1, 2, 3, 4, 32])) =
      (true, "1 (RID: 1) 已被封禁 - 返回信息: 20") :=
  ⟨by decide, by decide, by decide⟩

/-- C3 (amended): a reply of at most 4 bytes yields `""` (not banned);
a longer reply has its first 4 bytes stripped and the tail decoded by the
cascade — when the trimmed ASCII-with-replacement decoding is nonempty it
is exactly the reason text — but the result is always nonempty (hence
reported as banned): a tail whose decodings all trim to empty yields the
tail's lowercase hex instead of the claimed "not banned". -/
theorem c3_reply_decoding (payload : List Nat) :
    (payload.length ≤ 4 → check_ban_reason (UdpOutcome.reply payload) = "") ∧
    (4 < payload.length →
      check_ban_reason (UdpOutcome.reply payload) =
        (⟨_decode_ban_data (payload.drop 4)⟩ : String) ∧
      (pyStrip (asciiReplace (payload.drop 4)) ≠ [] →
        check_ban_reason (UdpOutcome.reply payload) =
          (⟨pyStrip (asciiReplace (payload.drop 4))⟩ : String)) ∧
      check_ban_reason (UdpOutcome.reply payload) ≠ "") := by
  constructor
  · intro h
    simp [check_ban_reason, Nat.not_lt.mpr h]
  · intro h
    have he : check_ban_reason (UdpOutcome.reply payload) =
        (⟨_decode_ban_data (payload.drop 4)⟩ : String) := by
      simp [check_ban_reason, h]
    refine ⟨he, ?_, ?_⟩
    · intro hne
      rw [he, decode_ascii_branch hne]
    · rw [he]
      have hd : payload.drop 4 ≠ [] := by
        intro hnil
        have hlen := congrArg List.length hnil
        rw [List.length_drop] at hlen
        simp only [List.length_nil] at hlen
        omega
      intro hemp
      exact decode_ne_nil hd (by simpa using congrArg String.data hemp)

/-- Witness for C3 at a short reply and at a reply with tail `"hi"`. -/
theorem c3_reply_decoding_witness :
    check_ban_reason (UdpOutcome.reply [0, 0, 0, 0]) = "" ∧
    check_ban_reason (UdpOutcome.reply [0, 0, 0, 0, 104, 105]) =
      (⟨pyStrip (asciiReplace [104, 105])⟩ : String) :=
  ⟨(c3_reply_decoding [0, 0, 0, 0]).1 (by decide),
    ((c3_reply_decoding [0, 0, 0, 0, 104, 105]).2 (by decide)).2.1 (by decide)⟩

theorem step3_shape (env : Env) (c : Cache) (id : String) (ridOpt : Option String)
    (uc : Bool) (ev : List Event) :
    ((step3_onwards env c id ridOpt uc ev).events = ev ∧
      (step3_onwards env c id ridOpt uc ev).cache = c) ∨
    (∃ rid, rid ≠ "" ∧ ridOpt = some rid ∧
      (step3_onwards env c id ridOpt uc ev).events =
        ev ++ [Event.cachePut id rid,
          Event.snapshotSave (save_cache_to_file env.path env.fs)] ∧
      (step3_onwards env c id ridOpt uc ev).cache = dictPut c id rid) := by
  rcases ridOpt with _ | rid
  · exact Or.inl ⟨rfl, rfl⟩
  · by_cases hr : rid = ""
    · left
      simp [step3_onwards, hr]
    · cases uc with
      | false =>
        left
        cases hp : pyInt rid <;> simp [step3_onwards, hr, hp]
      | true =>
        right
        refine ⟨rid, hr, rfl, ?_, ?_⟩ <;>
          cases hp : pyInt rid <;> simp [step3_onwards, hr, hp, add_rid_to_cache]

theorem banReport_nonempty (id rid r : String) (hr : r ≠ "") :
    banReport id rid r =
      (true, id ++ " (RID: " ++ rid ++ ") 已被封禁 - 返回信息: " ++ r) := by
  unfold banReport
  rw [if_neg hr]

/-! ## C10: empty cached value is a miss -/

/-- C10: a cached value `""` is falsy, so the lookup is treated as a miss:
the call is exactly steps 2–5 on the unchanged cache, no removal event is
emitted, and the final cache is either unchanged or updated only through
the normal step-4 put of a nonempty freshly obtained rid. -/
theorem c10_empty_cached_value (env : Env) (c : Cache) (id : String)
    (hget : get_rid_from_cache c id = some "") :
    check_ban_async env c id true = step2_onwards env c id true [] ∧
    (∀ x, Event.cacheRemove x ∉ (check_ban_async env c id true).events) ∧
    ((check_ban_async env c id true).cache = c ∨
      ∃ rid, rid ≠ "" ∧ (check_ban_async env c id true).cache = dictPut c id rid) := by
  have h1 : check_ban_async env c id true = step2_onwards env c id true [] := by
    simp [check_ban_async, hget]
  refine ⟨h1, ?_, ?_⟩
  · intro x hx
    rw [h1] at hx
    unfold step2_onwards at hx
    by_cases hd : pyIsDigitStr id
    · rw [if_pos hd] at hx
      rcases step3_shape env c id (some id) true [] with ⟨he, _⟩ | ⟨rid, _, _, he, _⟩ <;>
        rw [he] at hx <;> simp at hx
    · rw [if_neg hd] at hx
      rcases step3_shape env c id (env.resolve id) true
          ([] ++ [Event.resolverCall id]) with ⟨he, _⟩ | ⟨rid, _, _, he, _⟩ <;>
        rw [he] at hx <;> simp at hx
  · rw [h1]
    unfold step2_onwards
    by_cases hd : pyIsDigitStr id
    · rw [if_pos hd]
      rcases step3_shape env c id (some id) true [] with ⟨_, hc⟩ | ⟨rid, hr, _, _, hc⟩
      · exact Or.inl hc
      · exact Or.inr ⟨rid, hr, hc⟩
    · rw [if_neg hd]
      rcases step3_shape env c id (env.resolve id) true
          ([] ++ [Event.resolverCall id]) with ⟨_, hc⟩ | ⟨rid, hr, _, _, hc⟩
      · exact Or.inl hc
      · exact Or.inr ⟨rid, hr, hc⟩

/-- Witness for C10 at the cache `[("x", "")]`. -/
theorem c10_empty_cached_value_witness :
    check_ban_async envNoResolve [("x", "")] "x" true =
      step2_onwards envNoResolve [("x", "")] "x" true [] :=
  (c10_empty_cached_value envNoResolve [("x", "")] "x" (by decide)).1

/-! ## C5: corrupt-entry repair -/

/-- C5 counterexample: the cached value `""` fails to parse as an integer
(Python `int("")` raises `ValueError`), yet the entry is not removed: the
empty string is falsy, so the code treats the lookup as a miss — after the
call (resolver failing) the corrupt entry is still in the cache and no
removal was recorded, contradicting the claim's "removes that entry". -/
theorem c5_counterexample :
    pyInt "" = none ∧
    (check_ban_async envNoResolve [("alice", "")] "alice" true).cache =
      [("alice", "")] ∧
    (check_ban_async envNoResolve [("alice", "")] "alice" true).events =
      [Event.resolverCall "alice"] :=
  ⟨by decide, by decide, by decide⟩

/-- C5 (amended): for every identifier whose cached value is truthy
(nonempty) and fails to parse as an integer, `check_ban_async` with
caching removes the entry and falls through: the call equals steps 2–5 run
on the cache with the entry removed — so the repair itself surfaces no
error and the result is whatever fresh resolution produces — and the
removal is recorded. (The nonemptiness restriction is forced: an empty
cached value is falsy and is treated as a miss without removal.) -/
theorem c5_corrupt_entry_repair (env : Env) (c : Cache) (id v : String)
    (hget : get_rid_from_cache c id = some v) (hv : v ≠ "")
    (hbad : pyInt v = none) :
    check_ban_async env c id true =
      step2_onwards env (remove_from_cache c id) id true [Event.cacheRemove id] ∧
    Event.cacheRemove id ∈ (check_ban_async env c id true).events := by
  have h1 : check_ban_async env c id true =
      step2_onwards env (remove_from_cache c id) id true [Event.cacheRemove id] := by
    simp [check_ban_async, hget, hv, hbad]
  refine ⟨h1, ?_⟩
  rw [h1]
  unfold step2_onwards
  by_cases hd : pyIsDigitStr id
  · rw [if_pos hd]
    rcases step3_shape env (remove_from_cache c id) id (some id) true
        [Event.cacheRemove id] with ⟨he, _⟩ | ⟨rid, _, _, he, _⟩ <;>
      rw [he] <;> simp
  · rw [if_neg hd]
    rcases step3_shape env (remove_from_cache c id) id (env.resolve id) true
        ([Event.cacheRemove id] ++ [Event.resolverCall id]) with
        ⟨he, _⟩ | ⟨rid, _, _, he, _⟩ <;>
      rw [he] <;> simp

/-- Witness for C5 at the spec's own example `("alice", "not-a-number")`. -/
theorem c5_corrupt_entry_repair_witness :
    check_ban_async envNoResolve [("alice", "not-a-number")] "alice" true =
      step2_onwards envNoResolve
        (remove_from_cache [("alice", "not-a-number")] "alice") "alice" true
        [Event.cacheRemove "alice"] :=
  (c5_corrupt_entry_repair envNoResolve [("alice", "not-a-number")] "alice"
    "not-a-number" (by decide) (by decide) (by decide)).1

/-! ## C6: fresh resolution branch -/

/-- C6 counterexample: `"²"` (U+00B2) is not composed of decimal digits, so
the claim requires a Name Resolver call; but Python `str.isdigit` accepts
it, so the code uses it directly as the rid: no resolver call is recorded
(even though the environment's resolver would return a usable rid), and
the call instead fails later with the invalid-rid error. -/
theorem c6_counterexample :
    (∃ ch ∈ "²".data, (pyDecimalVal ch).isSome = false) ∧
    pyIsDigitStr "²" = true ∧
    (check_ban_async envResolve42 [] "²" false).events = [] ∧
    (check_ban_async envResolve42 [] "²" false).result =
      (false, "错误: 无效的RID ²") :=
  ⟨⟨'²', by decide, by decide⟩, by decide, by decide, by decide⟩

/-- C6 (amended): on the fresh-resolution path (shown with caching
disabled; the cache-miss path runs the same steps 2–5), the branch is
governed by Python `str.isdigit` rather than "composed entirely of decimal
digits": when `identifier.isdigit()` holds, the identifier itself is the
rid and the resolver is never called (including for non-decimal digit
characters such as '²'); otherwise the resolver is called; and when the
rid obtained is `None` or empty, the call fails with the
unable-to-resolve message. -/
theorem c6_fresh_resolution (env : Env) (c : Cache) (id : String) :
    check_ban_async env c id false = step2_onwards env c id false [] ∧
    (pyIsDigitStr id = true →
      step2_onwards env c id false [] = step3_onwards env c id (some id) false [] ∧
      ∀ x, Event.resolverCall x ∉ (step2_onwards env c id false []).events) ∧
    (pyIsDigitStr id = false →
      Event.resolverCall id ∈ (step2_onwards env c id false []).events ∧
      ((env.resolve id = none ∨ env.resolve id = some "") →
        (step2_onwards env c id false []).result =
          (false, "错误: 无法获取 " ++ id ++ " 的RID"))) := by
  refine ⟨by simp [check_ban_async], ?_, ?_⟩
  · intro hd
    constructor
    · unfold step2_onwards
      rw [if_pos hd]
    · intro x hx
      unfold step2_onwards at hx
      rw [if_pos hd] at hx
      rcases step3_shape env c id (some id) false [] with ⟨he, _⟩ | ⟨rid, _, _, he, _⟩ <;>
        rw [he] at hx <;> simp at hx
  · intro hd
    have hd' : ¬ pyIsDigitStr id = true := by simp [hd]
    constructor
    · unfold step2_onwards
      rw [if_neg hd']
      rcases step3_shape env c id (env.resolve id) false
          ([] ++ [Event.resolverCall id]) with ⟨he, _⟩ | ⟨rid, _, _, he, _⟩ <;>
        rw [he] <;> simp
    · intro hr
      unfold step2_onwards
      rw [if_neg hd']
      rcases hr with hr | hr <;> simp [step3_onwards, hr]

/-- Witness for C6 at the non-digit identifier `"abc"` with a failing
resolver. -/
theorem c6_fresh_resolution_witness :
    Event.resolverCall "abc" ∈ (step2_onwards envNoResolve [] "abc" false []).events ∧
    (step2_onwards envNoResolve [] "abc" false []).result =
      (false, "错误: 无法获取 " ++ "abc" ++ " 的RID") :=
  ⟨((c6_fresh_resolution envNoResolve [] "abc").2.2 (by decide)).1,
    ((c6_fresh_resolution envNoResolve [] "abc").2.2 (by decide)).2 (Or.inl rfl)⟩

/-! ## C1: transport failures -/

/-- C1 counterexample: with every UDP query timing out, checking the digit
identifier "123" (no cache) returns ok = true with a message that reports
the user as banned, the timeout text standing in the reason position — not
the (ok = false, timeout message) failure the claim requires. -/
theorem c1_counterexample :
    (check_ban_async envTimeoutAll [] "123" false).result =
      (true, "123 (RID: 123) 已被封禁 - 返回信息: 查询超时") := by
  decide

/-- C1 (amended): the Ban Query Client never fails its caller — it
converts a timeout into the nonempty string "查询超时" and a transport
error into "查询错误: " ++ msg — and `check_ban_async` treats any nonempty
reason as a ban, so on a transport failure it returns ok = true with the
banned-format message carrying the error text in the reason position
(shown on the cached-hit path and on the digit fresh path); the timeout or
error text is carried, but as a purported ban reason, not as a failure. -/
theorem c1_transport_failure_reporting (env : Env) (c : Cache) (id rid : String)
    (ri : Int) (hp : pyInt rid = some ri)
    (hq : env.query ri = UdpOutcome.timeout ∨
      ∃ e, env.query ri = UdpOutcome.transportError e) :
    check_ban_reason (env.query ri) ≠ "" ∧
    (get_rid_from_cache c id = some rid → rid ≠ "" →
      (check_ban_async env c id true).result =
        (true, id ++ " (RID: " ++ rid ++ ") 已被封禁 - 返回信息: " ++
          check_ban_reason (env.query ri))) ∧
    (pyIsDigitStr id = true → id = rid →
      (check_ban_async env c id false).result =
        (true, id ++ " (RID: " ++ rid ++ ") 已被封禁 - 返回信息: " ++
          check_ban_reason (env.query ri))) := by
  have hne : check_ban_reason (env.query ri) ≠ "" := by
    rcases hq with hq | ⟨e, hq⟩ <;> rw [hq]
    · decide
    · intro hcon
      have hcon' : ("查询错误: " ++ e : String) = "" := hcon
      have hdat := congrArg String.data hcon'
      rw [String.data_append] at hdat
      simp at hdat
  refine ⟨hne, ?_, ?_⟩
  · intro hget hrid
    have h1 : check_ban_async env c id true =
        ⟨banReport id rid (check_ban_reason (env.query ri)), c, []⟩ := by
      simp [check_ban_async, hget, hrid, hp]
    rw [h1]
    show banReport id rid (check_ban_reason (env.query ri)) = _
    rw [banReport_nonempty id rid _ hne]
  · intro hd hidr
    subst hidr
    have hid : id ≠ "" := by
      intro hcon
      rw [hcon] at hd
      exact absurd hd (by decide)
    have h1 : check_ban_async env c id false =
        step3_onwards env c id (some id) false ([] ++ []) := by
      simp [check_ban_async, step2_onwards, hd]
    rw [h1]
    show (step3_onwards env c id (some id) false []).result = _
    simp only [step3_onwards, if_neg hid, hp]
    show banReport id id (check_ban_reason (env.query ri)) = _
    rw [banReport_nonempty id id _ hne]

/-- Witness for C1 on both failure kinds: a timeout on the cached-hit path
and a socket error on the digit fresh path. -/
theorem c1_transport_failure_reporting_witness :
    (check_ban_async envTimeoutAll [("p", "123")] "p" true).result =
      (true, "p" ++ " (RID: " ++ "123" ++ ") 已被封禁 - 返回信息: " ++
        check_ban_reason (envTimeoutAll.query 123)) ∧
    (check_ban_async envSockErr [] "55" false).result =
      (true, "55" ++ " (RID: " ++ "55" ++ ") 已被封禁 - 返回信息: " ++
        check_ban_reason (envSockErr.query 55)) :=
  ⟨(c1_transport_failure_reporting envTimeoutAll [("p", "123")] "p" "123" 123
      (by decide) (Or.inl rfl)).2.1 (by decide) (by decide),
    (c1_transport_failure_reporting envSockErr [] "55" "55" 55
      (by decide) (Or.inr ⟨"boom", rfl⟩)).2.2 (by decide) rfl⟩

end BanCheck
